import Mathlib

/-!
Verification of the `container_registry` crate (`src/lib.rs`).

Strings arriving from HTTP are modelled as byte lists (`List Nat`, each entry
a byte value), matching Rust's `&str` byte-level `len()` and `starts_with`.
The handlers are modelled as pure functions over the request data together
with oracles for the storage backend's results; their calls into storage and
the hook sink are recorded as an event trace.
-/

/-- Hex digit decoding, as implemented by the `hex` crate's `FromHex`:
bytes `0`-`9`, `a`-`f` and `A`-`F` decode, all others fail. -/
def hexDigitVal? (c : Nat) : Option Nat :=
  if 48 ≤ c ∧ c ≤ 57 then some (c - 48)
  else if 97 ≤ c ∧ c ≤ 102 then some (c - 87)
  else if 65 ≤ c ∧ c ≤ 70 then some (c - 55)
  else none

/-- Hex decoding of a byte string into raw bytes, two hex digits per output
byte, as in `hex::FromHex for [u8; N]` (modulo the length check, which the
caller `from_str` performs). Odd-length input fails. -/
def fromHex? : List Nat → Option (List Nat)
  | [] => some []
  | [_] => none
  | c1 :: c2 :: rest =>
    match hexDigitVal? c1, hexDigitVal? c2, fromHex? rest with
    | some hi, some lo, some bs => some ((16 * hi + lo) :: bs)
    | _, _, _ => none

/-- The lowercase hex character for a value `v < 16`. -/
def lowerHexChar (v : Nat) : Nat :=
  if v < 10 then 48 + v else 87 + v

/-- Lowercase hex encoding of a byte sequence, as produced by `hex::encode`
(which the `Display` impl of `storage::Digest` uses; the spec fixes the wire
form to lowercase hex). -/
def hexEncode : List Nat → List Nat
  | [] => []
  | b :: bs => lowerHexChar (b / 16) :: lowerHexChar (b % 16) :: hexEncode bs

/-- The bytes of the literal string `sha256:`. -/
def sha256Lead : List Nat := [115, 104, 97, 50, 53, 54, 58]

/-- `storage::Digest`: a 32-byte SHA-256 digest value. -/
structure Digest where
  bytes : List Nat
deriving DecidableEq, Repr

/-- `ImageDigestParseError` from `lib.rs`. -/
inductive ImageDigestParseError where
  | WrongLength : ImageDigestParseError
  | WrongPrefix : ImageDigestParseError
  | HexDecodeError : ImageDigestParseError
deriving DecidableEq, Repr

/-- `ImageDigest::from_str` from `lib.rs`: requires byte length exactly
`7 + 64`, the literal `sha256:` lead, then hex-decodes the remaining 64
bytes. -/
def from_str (raw : List Nat) : Except ImageDigestParseError Digest :=
  if raw.length ≠ 7 + 64 then Except.error ImageDigestParseError.WrongLength
  else if !(sha256Lead.isPrefixOf raw) then
    Except.error ImageDigestParseError.WrongPrefix
  else
    match fromHex? (raw.drop 7) with
    | none => Except.error ImageDigestParseError.HexDecodeError
    | some bs => Except.ok (Digest.mk bs)

/-- `Display for ImageDigest` at the byte level: `sha256:` followed by the
digest's hex. Modelled from the spec: the `Display` impl of
`storage::Digest` (in the `storage` module) renders the 32 bytes as
lowercase hex, per the spec's fixed wire form. -/
def imageDigestBytes (d : Digest) : List Nat :=
  sha256Lead ++ hexEncode d.bytes

/-- A byte is an ASCII hex digit (either case), exactly the bytes
`hexDigitVal?` accepts. -/
def isHexDigit (c : Nat) : Bool :=
  decide ((48 ≤ c ∧ c ≤ 57) ∨ (97 ≤ c ∧ c ≤ 102) ∨ (65 ≤ c ∧ c ≤ 70))

/-- A byte is a lowercase-canonical hex digit: `0`-`9` or `a`-`f`. -/
def isLowerHexDigit (c : Nat) : Bool :=
  decide ((48 ≤ c ∧ c ≤ 57) ∨ (97 ≤ c ∧ c ≤ 102))

/-- Renders a byte list as a lowercase hex `String`. Modelled from the spec:
the `Display` impl of `storage::Digest` (in the `storage` module) renders
the 32 bytes as lowercase hex, per the spec's fixed wire form. -/
def hexString (bs : List Nat) : String :=
  String.mk ((hexEncode bs).map Char.ofNat)

/-- `Display for ImageDigest` (also its `Serialize`): `sha256:` + hex. -/
def imageDigestString (d : Digest) : String :=
  "sha256:" ++ hexString d.bytes

/-- The body of an HTTP response. Streaming bodies are modelled by their
full byte content; the OCI JSON error envelope is kept abstract by its
error code. -/
inductive BodyContent where
  | empty : BodyContent
  | text : String → BodyContent
  | bytes : List Nat → BodyContent
  | ociError : String → BodyContent
deriving DecidableEq, Repr

/-- An HTTP response: status code, headers in insertion order, body. -/
structure Response where
  status : Nat
  headers : List (String × String)
  body : BodyContent
deriving DecidableEq, Repr

/-- The first value of the named header, if present. -/
def Response.header? (r : Response) (name : String) : Option String :=
  (r.headers.find? (fun p => p.1 == name)).map (fun p => p.2)

/-- Modelled from the spec: `storage::Error` (the `storage` module is not
under the verified source). The spec distinguishes exactly `NotFound`,
`DigestMismatch` and I/O failure (§4.1). -/
inductive StorageErr where
  | NotFound : StorageErr
  | DigestMismatch : StorageErr
  | IoFailure : StorageErr
deriving DecidableEq, Repr

/-- Modelled from the spec: `storage::Error`'s `IntoResponse` per the status
table (§6, §7): not-found → 404, digest mismatch → 400, I/O → 500. The
message bodies are not specified and are abstract placeholders. -/
def StorageErr.into_response : StorageErr → Response
  | .NotFound => { status := 404, headers := [], body := .ociError "BLOB_UNKNOWN" }
  | .DigestMismatch => { status := 400, headers := [], body := .text "digest mismatch" }
  | .IoFailure => { status := 500, headers := [], body := .text "storage io failure" }

/-- `RegistryError` from `lib.rs`. The source-error payloads
(`serde_json::Error`, boxed parse errors) are modelled by the message
strings their `Display` contributes to the response body. -/
inductive RegistryError where
  | NotFound : RegistryError
  | Storage : StorageErr → RegistryError
  | ParseManifest : String → RegistryError
  | NotSupported : String → RegistryError
  | ContentLengthMalformed : String → RegistryError
  | IncomingReadFailed : RegistryError
  | LocalWriteFailed : RegistryError
  | AxumHttp : RegistryError
deriving DecidableEq, Repr

/-- `RegistryError::into_response` from `lib.rs`. -/
def RegistryError.into_response : RegistryError → Response
  | .NotFound => { status := 404, headers := [], body := .ociError "BLOB_UNKNOWN" }
  | .Storage e => StorageErr.into_response e
  | .ParseManifest msg =>
    { status := 400, headers := [], body := .text ("could not parse manifest: " ++ msg) }
  | .NotSupported feature =>
    { status := 500, headers := [], body := .text ("feature not supported: " ++ feature) }
  | .ContentLengthMalformed msg =>
    { status := 400, headers := [], body := .text ("invalid content length value: " ++ msg) }
  | .IncomingReadFailed =>
    { status := 500, headers := [], body := .text "could not read input stream" }
  | .LocalWriteFailed =>
    { status := 500, headers := [], body := .text "could not write image locally" }
  | .AxumHttp =>
    { status := 500, headers := [], body := .text "error building axum HTTP response" }

/-- Converts a handler's `Result<Response, RegistryError>` to the final
HTTP response, as axum does with the handler return value. -/
def handleResult : Except RegistryError Response → Response
  | .ok r => r
  | .error e => RegistryError.into_response e

/-- `storage::ImageLocation` — modelled from the spec: a
`(repository, image)` pair of path segments. -/
structure ImageLocation where
  repository : String
  image : String
deriving DecidableEq, Repr

/-- `storage::Reference` — modelled from the spec: a manifest is identified
by a tag or by a digest. -/
inductive Reference where
  | tag : String → Reference
  | digest : Digest → Reference
deriving DecidableEq, Repr

/-- `Display for Reference` — modelled from the spec: a tag renders as its
name, a digest in the `sha256:` + hex wire form. -/
def Reference.toString : Reference → String
  | .tag name => name
  | .digest d => imageDigestString d

/-- `storage::ManifestReference` — `(ImageLocation, Reference)`. -/
structure ManifestReference where
  location : ImageLocation
  reference : Reference
deriving DecidableEq, Repr

/-- `mk_upload_location` from `lib.rs`. -/
def mk_upload_location (location : ImageLocation) (uuid : String) : String :=
  "/v2/" ++ location.repository ++ "/" ++ location.image ++ "/uploads/" ++ uuid

/-- `mk_manifest_location` from `lib.rs`. -/
def mk_manifest_location (location : ImageLocation) (reference : Reference) : String :=
  "/v2/" ++ location.repository ++ "/" ++ location.image ++ "/manifests/" ++
    Reference.toString reference

/-- One storage or hook-sink call made by a handler; handlers return the
list of calls they made, in order. -/
inductive Event where
  | getUploadWriter : Nat → String → Event
  | writeChunk : String → List Nat → Event
  | flushUpload : String → Event
  | finalizeUpload : String → Digest → Event
  | putManifest : ManifestReference → List Nat → Event
  | hookManifestUploaded : ManifestReference → Event
  | getManifest : ManifestReference → Event
  | getBlobReader : Digest → Event
  | getBlobMetadata : Digest → Event
deriving DecidableEq, Repr

/-- `ContainerRegistry` from `lib.rs`, reduced to the one field the modelled
handlers read directly; storage, hooks and the auth provider enter as
oracles. -/
structure ContainerRegistry where
  realm : String
deriving DecidableEq, Repr

/-- `ContainerRegistry::new` from `lib.rs`: the realm is fixed. -/
def ContainerRegistry.new : ContainerRegistry :=
  { realm := "ContainerRegistry" }

/-- `auth::UnverifiedCredentials` — an unverified username/password pair
from HTTP Basic auth. -/
structure UnverifiedCredentials where
  username : String
  password : String
deriving DecidableEq, Repr

/-- `index_v2` from `lib.rs`: 200 with the `WWW-Authenticate` header when
credentials are present and accepted, otherwise 401 with the same header.
`check` is the oracle for `auth_provider.check_credentials`. -/
def index_v2 (registry : ContainerRegistry)
    (credentials : Option UnverifiedCredentials)
    (check : UnverifiedCredentials → Bool) : Response :=
  let wwwAuth : String × String :=
    ("WWW-Authenticate", "Basic realm=\"" ++ registry.realm ++ "\"")
  match credentials with
  | some creds =>
    if check creds then { status := 200, headers := [wwwAuth], body := .empty }
    else { status := 401, headers := [wwwAuth], body := .empty }
  | none => { status := 401, headers := [wwwAuth], body := .empty }

/-- `blob_check` from `lib.rs` (HEAD on a blob). `metadataRes` is the oracle
for `storage.get_blob_metadata`, carrying the blob size on a hit. -/
def blob_check (image : Digest) (metadataRes : Except StorageErr (Option Nat)) :
    List Event × Except RegistryError Response :=
  match metadataRes with
  | .error e => ([ .getBlobMetadata image], .error ( .Storage e))
  | .ok (some size) =>
    ([ .getBlobMetadata image],
      .ok { status := 200,
            headers := [("Content-Length", toString size),
                        ("Docker-Content-Digest", imageDigestString image),
                        ("Content-Type", "application/octet-stream")],
            body := .empty })
  | .ok none =>
    ([ .getBlobMetadata image],
      .ok { status := 404, headers := [], body := .empty })

/-- `blob_get` from `lib.rs` (GET on a blob). `readerRes` is the oracle for
`storage.get_blob_reader`; the streamed body is modelled by the blob's full
byte content. -/
def blob_get (image : Digest) (readerRes : Except StorageErr (Option (List Nat))) :
    List Event × Except RegistryError Response :=
  match readerRes with
  | .error e => ([ .getBlobReader image], .error ( .Storage e))
  | .ok none => ([ .getBlobReader image], .error .NotFound)
  | .ok (some blobBytes) =>
    ([ .getBlobReader image],
      .ok { status := 200, headers := [], body := .bytes blobBytes })

/-- `UploadState` from `lib.rs`. -/
structure UploadState where
  location : ImageLocation
  completed : Option Nat
  upload : String
deriving DecidableEq, Repr

/-- `IntoResponse for UploadState` from `lib.rs`: 202 with `Location`,
`Content-Length: 0` and `Docker-Upload-UUID`; a known completed count adds
`Range: 0-{completed}`, otherwise the builder adds a second
`Content-Length: 0`. -/
def UploadState.into_response (s : UploadState) : Response :=
  let base : List (String × String) :=
    [("Location", mk_upload_location s.location s.upload),
     ("Content-Length", "0"),
     ("Docker-Upload-UUID", s.upload)]
  match s.completed with
  | some completed =>
    { status := 202,
      headers := base ++ [("Range", "0-" ++ toString completed)],
      body := .empty }
  | none =>
    { status := 202, headers := base ++ [("Content-Length", "0")], body := .empty }

/-- The body-consuming loop of `upload_add_chunk`: each successfully read
chunk is written and counted; a failed body read aborts with
`IncomingReadFailed` (no flush). I/O failures of the writer itself
(`LocalWriteFailed`) are not modelled: the writer oracle accepts writes. -/
def uploadChunkLoop (upload : String) :
    List (Except String (List Nat)) → Nat → List Event × Except RegistryError Nat
  | [], completed => ([ .flushUpload upload], .ok completed)
  | .error _ :: _, _ => ([], .error .IncomingReadFailed)
  | .ok chunk :: rest, completed =>
    let r := uploadChunkLoop upload rest (completed + chunk.length)
    ( .writeChunk upload chunk :: r.1, r.2)

/-- `upload_add_chunk` from `lib.rs` (PATCH on an upload). `hasRange` is
whether the request carries a `Range` header; `writerRes` is the oracle for
`storage.get_upload_writer`; `chunks` are the successive read results of
the request body stream. -/
def upload_add_chunk (location : ImageLocation) (upload : String)
    (hasRange : Bool) (writerRes : Except StorageErr Unit)
    (chunks : List (Except String (List Nat))) :
    List Event × Except RegistryError UploadState :=
  if hasRange then
    ([], .error ( .NotSupported "unsupported feature: chunked uploads"))
  else
    match writerRes with
    | .error e => ([ .getUploadWriter 0 upload], .error ( .Storage e))
    | .ok _ =>
      let r := uploadChunkLoop upload chunks 0
      match r.2 with
      | .error e => ( .getUploadWriter 0 upload :: r.1, .error e)
      | .ok completed =>
        ( .getUploadWriter 0 upload :: r.1,
          .ok { location := location, completed := some completed, upload := upload })

/-- The PATCH route's final response: `Ok(UploadState)` renders through
`IntoResponse for UploadState`, errors through
`RegistryError::into_response`. -/
def upload_add_chunk_route (location : ImageLocation) (upload : String)
    (hasRange : Bool) (writerRes : Except StorageErr Unit)
    (chunks : List (Except String (List Nat))) : List Event × Response :=
  let r := upload_add_chunk location upload hasRange writerRes chunks
  (r.1,
    match r.2 with
    | .ok s => UploadState.into_response s
    | .error e => RegistryError.into_response e)

/-- Rust's `u64::from_str` (used on the `Content-Length` value): an optional
leading `+`, then one or more ASCII digits, value below `2^64`. -/
def parseU64? (s : String) : Option Nat :=
  let chars := s.toList
  let digits := if chars.head? = some '+' then chars.tail else chars
  if digits = [] then none
  else if digits.all Char.isDigit then
    let v := digits.foldl (fun acc c => 10 * acc + (c.toNat - 48)) 0
    if v < 2 ^ 64 then some v else none
  else none

/-- `upload_finalize` from `lib.rs` (PUT on an upload, `digest` query
parameter already parsed). `contentLength` is the `Content-Length` header
value when present (`HeaderValue::to_str` failures are subsumed in the
parse failure, both map to `ContentLengthMalformed`; the stored message
models the error's display); `finalizeRes` is the oracle for
`storage.finalize_upload`. -/
def upload_finalize (repository image upload : String) (digest : Digest)
    (contentLength : Option String) (finalizeRes : Except StorageErr Unit) :
    List Event × Except RegistryError Response :=
  let location := ImageLocation.mk repository image
  let proceed : List Event × Except RegistryError Response :=
    match finalizeRes with
    | .error e => ([ .finalizeUpload upload digest], .error ( .Storage e))
    | .ok _ =>
      ([ .finalizeUpload upload digest],
        .ok { status := 201,
              headers := [("Docker-Content-Digest", imageDigestString digest),
                          ("Location", mk_upload_location location upload)],
              body := .empty })
  match contentLength with
  | some value =>
    match parseU64? value with
    | none => ([], .error ( .ContentLengthMalformed value))
    | some numBytes =>
      if numBytes ≠ 0 then
        ([], .error ( .NotSupported "missing content length not implemented"))
      else proceed
  | none => proceed

/-- `manifest_put` from `lib.rs`, after axum has extracted the body as a
`String`. `putRes` is the oracle for `storage.put_manifest` (the computed
digest on success). The hook `on_manifest_uploaded` returns no value, so no
hook outcome can fail the request. -/
def manifest_put (manifest_reference : ManifestReference) (bodyBytes : List Nat)
    (putRes : Except StorageErr Digest) :
    List Event × Except RegistryError Response :=
  match putRes with
  | .error e =>
    ([ .putManifest manifest_reference bodyBytes], .error ( .Storage e))
  | .ok digest =>
    ([ .putManifest manifest_reference bodyBytes,
       .hookManifestUploaded manifest_reference],
      .ok { status := 201,
            headers := [("Location",
                          mk_manifest_location manifest_reference.location
                            manifest_reference.reference),
                        ("Content-Length", "0"),
                        ("Docker-Content-Digest", imageDigestString digest)],
            body := .empty })

/-- A byte in the UTF-8 continuation range `0x80..0xBF`. -/
def isUtf8Cont (b : Nat) : Bool := decide (128 ≤ b ∧ b ≤ 191)

/-- UTF-8 validity of a byte sequence, as checked by Rust's
`String::from_utf8` (which backs the axum `String` extractor): ASCII,
2-byte `C2..DF`+cont, 3-byte `E0 A0..BF`, `E1..EC`, `ED 80..9F` (no
surrogates), `EE..EF`, 4-byte `F0 90..BF`, `F1..F3`, `F4 80..8F`, with
continuation bytes `80..BF`; overlong forms rejected. -/
def isValidUtf8 : List Nat → Bool
  | [] => true
  | b :: rest =>
    if b ≤ 127 then isValidUtf8 rest
    else if 194 ≤ b ∧ b ≤ 223 then
      match rest with
      | b2 :: rest2 => isUtf8Cont b2 && isValidUtf8 rest2
      | [] => false
    else if 224 ≤ b ∧ b ≤ 239 then
      match rest with
      | b2 :: b3 :: rest3 =>
        (if b = 224 then decide (160 ≤ b2 ∧ b2 ≤ 191)
         else if b = 237 then decide (128 ≤ b2 ∧ b2 ≤ 159)
         else isUtf8Cont b2) && isUtf8Cont b3 && isValidUtf8 rest3
      | _ => false
    else if 240 ≤ b ∧ b ≤ 244 then
      match rest with
      | b2 :: b3 :: b4 :: rest4 =>
        (if b = 240 then decide (144 ≤ b2 ∧ b2 ≤ 191)
         else if b = 244 then decide (128 ≤ b2 ∧ b2 ≤ 143)
         else isUtf8Cont b2) && isUtf8Cont b3 && isUtf8Cont b4 && isValidUtf8 rest4
      | _ => false
    else false

/-- The manifest PUT route: axum's `String` extractor rejects a body that is
not valid UTF-8 with 400 before the handler runs; on valid UTF-8 the handler
receives exactly the request bytes (`String::from_utf8` keeps the byte
buffer and `as_bytes` returns it unchanged). -/
def manifest_put_route (manifest_reference : ManifestReference)
    (body : List Nat) (putRes : Except StorageErr Digest) :
    List Event × Response :=
  if isValidUtf8 body then
    let r := manifest_put manifest_reference body putRes
    (r.1, handleResult r.2)
  else
    ([], { status := 400, headers := [], body := .text "invalid utf-8" })

/-- `manifest_get` from `lib.rs`. `getRes` is the oracle for
`storage.get_manifest`; `parse` is the oracle for
`serde_json::from_slice::<ImageManifest>` together with
`ImageManifest::media_type` — modelled from the spec, the `types` module
being outside the verified source: it yields the declared media type, or
the JSON error's message on failure. -/
def manifest_get (manifest_reference : ManifestReference)
    (getRes : Except StorageErr (Option (List Nat)))
    (parse : List Nat → Except String String) :
    List Event × Except RegistryError Response :=
  match getRes with
  | .error e => ([ .getManifest manifest_reference], .error ( .Storage e))
  | .ok none => ([ .getManifest manifest_reference], .error .NotFound)
  | .ok (some manifest_json) =>
    match parse manifest_json with
    | .error msg =>
      ([ .getManifest manifest_reference], .error ( .ParseManifest msg))
    | .ok mediaType =>
      ([ .getManifest manifest_reference],
        .ok { status := 200,
              headers := [("Content-Length", toString manifest_json.length),
                          ("Content-Type", mediaType)],
              body := .bytes manifest_json })

-- Basic lemmas about the hex primitives.

theorem hexDigitVal?_isSome (c : Nat) :
    (hexDigitVal? c).isSome = isHexDigit c := by
  simp only [hexDigitVal?, isHexDigit]
  split_ifs with h1 h2 h3 <;> simp <;> omega

theorem hexDigitVal?_lt (c v : Nat) (h : hexDigitVal? c = some v) : v < 16 := by
  simp only [hexDigitVal?] at h
  split_ifs at h <;> simp_all <;> omega

theorem hexDigitVal?_lowerHexChar (v : Nat) (h : v < 16) :
    hexDigitVal? (lowerHexChar v) = some v := by
  interval_cases v <;> rfl

theorem lowerHexChar_of_lower (c v : Nat) (hv : hexDigitVal? c = some v)
    (hc : isLowerHexDigit c = true) : lowerHexChar v = c := by
  simp only [isLowerHexDigit, decide_eq_true_eq] at hc
  simp only [hexDigitVal?] at hv
  split_ifs at hv with h1 h2 h3
  · simp only [Option.some.injEq] at hv
    simp only [lowerHexChar]; split_ifs <;> omega
  · simp only [Option.some.injEq] at hv
    simp only [lowerHexChar]; split_ifs <;> omega
  · exfalso; omega

theorem hexEncode_length (d : List Nat) : (hexEncode d).length = 2 * d.length := by
  induction d with
  | nil => rfl
  | cons b bs ih => simp [hexEncode, ih]; omega

theorem fromHex?_hexEncode (d : List Nat) (hb : ∀ b ∈ d, b < 256) :
    fromHex? (hexEncode d) = some d := by
  induction d with
  | nil => rfl
  | cons b bs ih =>
    have hblt : b < 256 := hb b (List.mem_cons_self b bs)
    have hdiv : b / 16 < 16 := by omega
    have hmod : b % 16 < 16 := Nat.mod_lt _ (by omega)
    have ihr : fromHex? (hexEncode bs) = some bs :=
      ih fun x hx => hb x (List.mem_cons_of_mem b hx)
    simp [hexEncode, fromHex?, hexDigitVal?_lowerHexChar _ hdiv,
      hexDigitVal?_lowerHexChar _ hmod, ihr, Nat.div_add_mod]

theorem fromHex?_isSome (l : List Nat) (h : l.length % 2 = 0) :
    (fromHex? l).isSome = l.all isHexDigit := by
  match l with
  | [] => rfl
  | [_] => simp at h
  | c1 :: c2 :: rest =>
    have ih := fromHex?_isSome rest (by simp only [List.length_cons] at h; omega)
    simp only [fromHex?, List.all_cons, ← hexDigitVal?_isSome, ← ih]
    cases hexDigitVal? c1 <;> cases hexDigitVal? c2 <;> cases fromHex? rest <;> simp

theorem hexEncode_fromHex? (l bs : List Nat) (h : fromHex? l = some bs)
    (hl : l.all isLowerHexDigit = true) : hexEncode bs = l := by
  match l with
  | [] =>
    simp only [fromHex?, Option.some.injEq] at h
    subst h; rfl
  | [_] => simp [fromHex?] at h
  | c1 :: c2 :: rest =>
    simp only [List.all_cons, Bool.and_eq_true] at hl
    obtain ⟨h1, h2, hrest⟩ := hl
    simp only [fromHex?] at h
    cases hv1 : hexDigitVal? c1 with
    | none => simp [hv1] at h
    | some hi =>
      cases hv2 : hexDigitVal? c2 with
      | none => simp [hv1, hv2] at h
      | some lo =>
        cases hr : fromHex? rest with
        | none => simp [hv1, hv2, hr] at h
        | some bs2 =>
          simp only [hv1, hv2, hr, Option.some.injEq] at h
          have ih := hexEncode_fromHex? rest bs2 hr hrest
          have hhi : hi < 16 := hexDigitVal?_lt c1 hi hv1
          have hlo : lo < 16 := hexDigitVal?_lt c2 lo hv2
          have hdiv : (16 * hi + lo) / 16 = hi := by omega
          have hmod : (16 * hi + lo) % 16 = lo := by omega
          simp [← h, hexEncode, hdiv, hmod, ih,
            lowerHexChar_of_lower c1 hi hv1 h1, lowerHexChar_of_lower c2 lo hv2 h2]

theorem isPrefixOf_append_self (l t : List Nat) : l.isPrefixOf (l ++ t) = true := by
  induction l with
  | nil => simp [List.isPrefixOf]
  | cons a l ih => simp [List.isPrefixOf, ih]

theorem eq_append_drop_of_isPrefixOf (l t : List Nat)
    (h : l.isPrefixOf t = true) : l ++ t.drop l.length = t := by
  induction l generalizing t with
  | nil => simp
  | cons a l ih =>
    cases t with
    | nil => simp [List.isPrefixOf] at h
    | cons b t =>
      simp only [List.isPrefixOf, Bool.and_eq_true, beq_iff_eq] at h
      obtain ⟨rfl, h2⟩ := h
      simp [ih t h2]

theorem sha256Lead_append_drop (raw : List Nat)
    (h : sha256Lead.isPrefixOf raw = true) :
    sha256Lead ++ raw.drop 7 = raw :=
  eq_append_drop_of_isPrefixOf sha256Lead raw h

-- Claim C1: digest parsing.

/-- Claim C1, counterexample: the parser accepts `sha256:` followed by 64
uppercase `A` bytes, although that suffix is not lowercase canonical hex,
refuting the claimed "succeeds iff … lowercase canonical hex"
equivalence at this input. -/
theorem C1_counterexample :
    from_str (sha256Lead ++ List.replicate 64 65) =
      Except.ok (Digest.mk (List.replicate 32 170))
    ∧ (sha256Lead ++ List.replicate 64 65).length = 71
    ∧ sha256Lead.isPrefixOf (sha256Lead ++ List.replicate 64 65) = true
    ∧ ((sha256Lead ++ List.replicate 64 65).drop 7).all isLowerHexDigit = false :=
  ⟨rfl, by decide, by decide, by decide⟩

/-- Claim C1 (amended: the 64-byte suffix must consist of hex digits of
either case — the `hex` crate also accepts uppercase — not only lowercase
canonical hex): parsing succeeds iff the input is exactly 71 bytes,
starts with `sha256:`, and its suffix is hex; the error is `WrongLength`
iff the length differs from 71, `WrongPrefix` iff the length is right but
the lead is not `sha256:`, and `HexDecodeError` iff only the hex decode of
the suffix fails. -/
theorem C1_digest_parse_characterization (raw : List Nat) :
    ((from_str raw).isOk = true ↔
      raw.length = 71 ∧ sha256Lead.isPrefixOf raw = true ∧
        (raw.drop 7).all isHexDigit = true)
    ∧ (from_str raw = Except.error ImageDigestParseError.WrongLength ↔
        ¬ raw.length = 71)
    ∧ (from_str raw = Except.error ImageDigestParseError.WrongPrefix ↔
        raw.length = 71 ∧ ¬ sha256Lead.isPrefixOf raw = true)
    ∧ (from_str raw = Except.error ImageDigestParseError.HexDecodeError ↔
        raw.length = 71 ∧ sha256Lead.isPrefixOf raw = true ∧
          ¬ (raw.drop 7).all isHexDigit = true) := by
  by_cases hlen : raw.length = 71
  · by_cases hpre : sha256Lead.isPrefixOf raw
    · have hdrop : (raw.drop 7).length % 2 = 0 := by
        simp [List.length_drop, hlen]
      have hsome := fromHex?_isSome (raw.drop 7) hdrop
      cases hfh : fromHex? (raw.drop 7) with
      | none =>
        have hall : (raw.drop 7).all isHexDigit = false := by
          rw [← hsome, hfh]; rfl
        refine ⟨?_, ?_, ?_, ?_⟩ <;>
          simp [from_str, Except.isOk, Except.toBool, hlen, hpre, hfh, hall]
      | some bs =>
        have hall : (raw.drop 7).all isHexDigit = true := by
          rw [← hsome, hfh]; rfl
        refine ⟨?_, ?_, ?_, ?_⟩ <;>
          simp [from_str, Except.isOk, Except.toBool, hlen, hpre, hfh, hall]
    · refine ⟨?_, ?_, ?_, ?_⟩ <;> simp [from_str, Except.isOk, Except.toBool, hlen, hpre]
  · refine ⟨?_, ?_, ?_, ?_⟩ <;> simp [from_str, Except.isOk, Except.toBool, hlen]

-- Claim C2: parse/format round trip.

/-- Claim C2, counterexample: the valid uppercase input `sha256:AA…A`
parses successfully, but formatting the parsed digest yields the lowercase
form `sha256:aa…a`, not the original string. -/
theorem C2_counterexample :
    from_str (sha256Lead ++ List.replicate 64 65) =
      Except.ok (Digest.mk (List.replicate 32 170))
    ∧ imageDigestBytes (Digest.mk (List.replicate 32 170)) ≠
        sha256Lead ++ List.replicate 64 65 :=
  ⟨rfl, by decide⟩

/-- Claim C2 (amended: the reconstruction `format(parse(s)) = s` holds for
valid inputs whose hex suffix is lowercase; uppercase valid inputs
re-format to their lowercase normalization): parsing the formatted digest
recovers any 32-byte digest, and formatting inverts parsing on
lowercase-hex valid inputs. -/
theorem C2_parse_format_inverse :
    (∀ d : List Nat, d.length = 32 → (∀ b ∈ d, b < 256) →
      from_str (sha256Lead ++ hexEncode d) = Except.ok (Digest.mk d))
    ∧ (∀ raw d, from_str raw = Except.ok d →
        (raw.drop 7).all isLowerHexDigit = true →
        imageDigestBytes d = raw) := by
  constructor
  · intro d hlen hb
    have hfull : (sha256Lead ++ hexEncode d).length = 71 := by
      simp [List.length_append, hexEncode_length, hlen]; rfl
    have hpre : sha256Lead.isPrefixOf (sha256Lead ++ hexEncode d) = true :=
      isPrefixOf_append_self sha256Lead (hexEncode d)
    have hdrop : (sha256Lead ++ hexEncode d).drop 7 = hexEncode d :=
      List.drop_left sha256Lead (hexEncode d)
    simp [from_str, hfull, hpre, hdrop, fromHex?_hexEncode d hb]
  · intro raw d h hlow
    by_cases hlen : raw.length = 71
    · by_cases hpre : sha256Lead.isPrefixOf raw
      · cases hfh : fromHex? (raw.drop 7) with
        | none => simp [from_str, hlen, hpre, hfh] at h
        | some bs =>
          simp only [from_str, hlen, hpre, hfh] at h
          have hsplit := sha256Lead_append_drop raw hpre
          have henc := hexEncode_fromHex? (raw.drop 7) bs hfh hlow
          simp at h
          rw [← h]
          simp [imageDigestBytes, henc, hsplit]
      · simp [from_str, hlen, hpre] at h
    · simp [from_str, hlen] at h

/-- Witness for C2 at the all-zero digest and its all-`0` hex string. -/
theorem C2_witness :
    from_str (sha256Lead ++ hexEncode (List.replicate 32 0)) =
      Except.ok (Digest.mk (List.replicate 32 0))
    ∧ imageDigestBytes (Digest.mk (List.replicate 32 0)) =
        sha256Lead ++ List.replicate 64 48 :=
  ⟨C2_parse_format_inverse.1 (List.replicate 32 0) (by decide) (by decide),
   C2_parse_format_inverse.2 (sha256Lead ++ List.replicate 64 48)
     (Digest.mk (List.replicate 32 0)) rfl (by decide)⟩

-- Claim C3: PUT finalize and Content-Length.

/-- Claim C3, counterexample: with `Content-Length: 5` the finalize handler
fails with `NotSupported` and an empty event trace, but the response status
is 500, which is not in the 400 class. -/
theorem C3_counterexample :
    upload_finalize "r" "i" "u" (Digest.mk (List.replicate 32 0)) (some "5")
        (Except.ok ()) =
      ([], Except.error
        (RegistryError.NotSupported "missing content length not implemented"))
    ∧ (RegistryError.into_response
        (RegistryError.NotSupported "missing content length not implemented")).status
        = 500
    ∧ ¬ (400 ≤ (RegistryError.into_response
            (RegistryError.NotSupported "missing content length not implemented")).status
          ∧ (RegistryError.into_response
            (RegistryError.NotSupported "missing content length not implemented")).status
            < 500) :=
  ⟨rfl, rfl, by decide⟩

/-- Claim C3 (amended: the `NotSupported` outcome maps to HTTP 500, not a
400-class response): a present non-zero `Content-Length` fails with
`NotSupported` without invoking `finalize_upload`; an absent
`Content-Length` is accepted and `finalize_upload` is invoked; a present
non-numeric `Content-Length` fails with `ContentLengthMalformed`, HTTP
400. -/
theorem C3_upload_finalize_content_length (repository image upload : String)
    (digest : Digest) (finalizeRes : Except StorageErr Unit) :
    (∀ value n, parseU64? value = some n → n ≠ 0 →
      upload_finalize repository image upload digest (some value) finalizeRes =
        ([], Except.error
          (RegistryError.NotSupported "missing content length not implemented"))
      ∧ (RegistryError.into_response
          (RegistryError.NotSupported
            "missing content length not implemented")).status = 500)
    ∧ ((upload_finalize repository image upload digest none finalizeRes).1 =
        [Event.finalizeUpload upload digest])
    ∧ (∀ value, parseU64? value = none →
        upload_finalize repository image upload digest (some value) finalizeRes =
          ([], Except.error (RegistryError.ContentLengthMalformed value))
        ∧ (RegistryError.into_response
            (RegistryError.ContentLengthMalformed value)).status = 400) := by
  refine ⟨?_, ?_, ?_⟩
  · intro value n hp hn
    exact ⟨by simp [upload_finalize, hp, hn], rfl⟩
  · cases finalizeRes <;> rfl
  · intro value hp
    exact ⟨by simp [upload_finalize, hp], rfl⟩

/-- Witness for C3: `Content-Length: 5` is rejected unsupported, an absent
header proceeds to finalize, `Content-Length: abc` is malformed. -/
theorem C3_witness :
    (upload_finalize "r" "i" "u" (Digest.mk []) (some "5") (Except.ok ()) =
       ([], Except.error
         (RegistryError.NotSupported "missing content length not implemented"))
     ∧ (RegistryError.into_response
         (RegistryError.NotSupported
           "missing content length not implemented")).status = 500)
    ∧ (upload_finalize "r" "i" "u" (Digest.mk []) none (Except.ok ())).1 =
        [Event.finalizeUpload "u" (Digest.mk [])]
    ∧ (upload_finalize "r" "i" "u" (Digest.mk []) (some "abc") (Except.ok ()) =
         ([], Except.error (RegistryError.ContentLengthMalformed "abc"))
       ∧ (RegistryError.into_response
           (RegistryError.ContentLengthMalformed "abc")).status = 400) :=
  ⟨(C3_upload_finalize_content_length "r" "i" "u" (Digest.mk [])
      (Except.ok ())).1 "5" 5 rfl (by decide),
   (C3_upload_finalize_content_length "r" "i" "u" (Digest.mk [])
      (Except.ok ())).2.1,
   (C3_upload_finalize_content_length "r" "i" "u" (Digest.mk [])
      (Except.ok ())).2.2 "abc" rfl⟩

-- Claim C4: PATCH with a Range header.

/-- Claim C4: a PATCH carrying a `Range` header fails with `NotSupported`
before any storage call (the event trace is empty: no writer is opened and
no byte is written), and the route response is HTTP 500 with a body
beginning `feature not supported: `. -/
theorem C4_patch_range_not_supported (location : ImageLocation) (upload : String)
    (writerRes : Except StorageErr Unit)
    (chunks : List (Except String (List Nat))) :
    upload_add_chunk location upload true writerRes chunks =
      ([], Except.error
        (RegistryError.NotSupported "unsupported feature: chunked uploads"))
    ∧ (upload_add_chunk_route location upload true writerRes chunks).2.status = 500
    ∧ (upload_add_chunk_route location upload true writerRes chunks).2.body =
        BodyContent.text
          ("feature not supported: " ++ "unsupported feature: chunked uploads")
    ∧ ∃ t, (upload_add_chunk_route location upload true writerRes chunks).2.body =
        BodyContent.text ("feature not supported: " ++ t) :=
  ⟨rfl, rfl, rfl, "unsupported feature: chunked uploads", rfl⟩

-- Claim C5: monolithic PATCH.

/-- The body loop on an all-successful chunk stream: one write event per
chunk in order, a final flush, and the byte count accumulated. -/
theorem uploadChunkLoop_ok (upload : String) (chunks : List (List Nat))
    (acc : Nat) :
    uploadChunkLoop upload (chunks.map Except.ok) acc =
      (chunks.map (Event.writeChunk upload) ++ [Event.flushUpload upload],
       Except.ok (acc + (chunks.map List.length).sum)) := by
  induction chunks generalizing acc with
  | nil => simp [uploadChunkLoop]
  | cons c cs ih =>
    simp [uploadChunkLoop, ih (acc + c.length), Nat.add_assoc]

/-- Claim C5: a PATCH without `Range` opens the upload writer at offset 0,
writes every body chunk in order, flushes, and responds 202 with
`Location: /v2/{repo}/{image}/uploads/{uuid}`, `Docker-Upload-UUID` the
upload id, and `Range: 0-{completed}` with `completed` the total number of
body bytes written. -/
theorem C5_patch_monolithic (location : ImageLocation) (upload : String)
    (chunks : List (List Nat)) :
    upload_add_chunk location upload false (Except.ok ()) (chunks.map Except.ok) =
      (Event.getUploadWriter 0 upload ::
         (chunks.map (Event.writeChunk upload) ++ [Event.flushUpload upload]),
       Except.ok { location := location,
                   completed := some ((chunks.map List.length).sum),
                   upload := upload })
    ∧ (upload_add_chunk_route location upload false (Except.ok ())
         (chunks.map Except.ok)).2 =
        { status := 202,
          headers := [("Location",
                        "/v2/" ++ location.repository ++ "/" ++ location.image ++
                          "/uploads/" ++ upload),
                      ("Content-Length", "0"),
                      ("Docker-Upload-UUID", upload),
                      ("Range", "0-" ++ toString ((chunks.map List.length).sum))],
          body := BodyContent.empty } := by
  have hloop := uploadChunkLoop_ok upload chunks 0
  constructor
  · simp [upload_add_chunk, hloop]
  · simp [upload_add_chunk_route, upload_add_chunk, hloop,
      UploadState.into_response, mk_upload_location]

-- Claim C6: successful manifest PUT.

/-- Claim C6: when `put_manifest` succeeds, the hook sink's
`on_manifest_uploaded` is called exactly once, with the request's manifest
reference, after the `put_manifest` call (the trace is exactly the put
followed by the hook); the hook returns no value, so no hook outcome can
fail the request; the response is 201 with `Docker-Content-Digest` equal to
`sha256:` plus the hex of the digest `put_manifest` returned, `Location`
the manifest URL, and `Content-Length: 0`. -/
theorem C6_manifest_put_success (manifest_reference : ManifestReference)
    (bodyBytes : List Nat) (digest : Digest) :
    manifest_put manifest_reference bodyBytes (Except.ok digest) =
      ([Event.putManifest manifest_reference bodyBytes,
        Event.hookManifestUploaded manifest_reference],
       Except.ok
         { status := 201,
           headers := [("Location",
                         mk_manifest_location manifest_reference.location
                           manifest_reference.reference),
                       ("Content-Length", "0"),
                       ("Docker-Content-Digest",
                         "sha256:" ++ hexString digest.bytes)],
           body := BodyContent.empty })
    ∧ (manifest_put manifest_reference bodyBytes (Except.ok digest)).1.count
        (Event.hookManifestUploaded manifest_reference) = 1 := by
  refine ⟨rfl, ?_⟩
  simp [manifest_put, List.count_cons]

-- Claim C7: manifest GET.

/-- Claim C7: a storage miss yields 404; stored bytes that fail to parse as
a manifest (or lack a media type) yield `ParseManifest`, HTTP 400 with a
body beginning `could not parse manifest: `; otherwise 200 with
`Content-Type` the declared media type, `Content-Length` the stored byte
count, and the exact stored bytes as body. -/
theorem C7_manifest_get (manifest_reference : ManifestReference)
    (parse : List Nat → Except String String) :
    (manifest_get manifest_reference (Except.ok none) parse =
       ([Event.getManifest manifest_reference],
        Except.error RegistryError.NotFound)
     ∧ (RegistryError.into_response RegistryError.NotFound).status = 404)
    ∧ (∀ bytes msg, parse bytes = Except.error msg →
        manifest_get manifest_reference (Except.ok (some bytes)) parse =
          ([Event.getManifest manifest_reference],
           Except.error (RegistryError.ParseManifest msg))
        ∧ (RegistryError.into_response
            (RegistryError.ParseManifest msg)).status = 400
        ∧ ∃ t, (RegistryError.into_response
              (RegistryError.ParseManifest msg)).body =
            BodyContent.text ("could not parse manifest: " ++ t))
    ∧ (∀ bytes mediaType, parse bytes = Except.ok mediaType →
        manifest_get manifest_reference (Except.ok (some bytes)) parse =
          ([Event.getManifest manifest_reference],
           Except.ok { status := 200,
                       headers := [("Content-Length", toString bytes.length),
                                   ("Content-Type", mediaType)],
                       body := BodyContent.bytes bytes })) := by
  refine ⟨⟨rfl, rfl⟩, ?_, ?_⟩
  · intro bytes msg hp
    exact ⟨by simp [manifest_get, hp], rfl, msg, rfl⟩
  · intro bytes mediaType hp
    simp [manifest_get, hp]

/-- Witness for C7 at concrete parse outcomes. -/
theorem C7_witness :
    manifest_get
        (ManifestReference.mk (ImageLocation.mk "r" "i") (Reference.tag "latest"))
        (Except.ok (some [123])) (fun _ => Except.error "x") =
      ([Event.getManifest
          (ManifestReference.mk (ImageLocation.mk "r" "i") (Reference.tag "latest"))],
       Except.error (RegistryError.ParseManifest "x"))
    ∧ manifest_get
        (ManifestReference.mk (ImageLocation.mk "r" "i") (Reference.tag "latest"))
        (Except.ok (some [123])) (fun _ => Except.ok "application/json") =
      ([Event.getManifest
          (ManifestReference.mk (ImageLocation.mk "r" "i") (Reference.tag "latest"))],
       Except.ok { status := 200,
                   headers := [("Content-Length", toString ([123] : List Nat).length),
                               ("Content-Type", "application/json")],
                   body := BodyContent.bytes [123] }) :=
  ⟨((C7_manifest_get _ _).2.1 [123] "x" rfl).1,
   (C7_manifest_get _ _).2.2 [123] "application/json" rfl⟩

-- Claim C8: GET /v2/.

/-- Claim C8: accepted credentials give 200 with an empty body; absent or
rejected credentials give 401; in every case the response carries exactly
the header `WWW-Authenticate: Basic realm="ContainerRegistry"` (the realm
fixed by `ContainerRegistry::new`). -/
theorem C8_index_v2 (credentials : Option UnverifiedCredentials)
    (check : UnverifiedCredentials → Bool) :
    (index_v2 ContainerRegistry.new credentials check).header?
        "WWW-Authenticate" = some "Basic realm=\"ContainerRegistry\""
    ∧ (∀ creds, credentials = some creds → check creds = true →
        index_v2 ContainerRegistry.new credentials check =
          { status := 200,
            headers := [("WWW-Authenticate", "Basic realm=\"ContainerRegistry\"")],
            body := BodyContent.empty })
    ∧ (credentials = none →
        index_v2 ContainerRegistry.new credentials check =
          { status := 401,
            headers := [("WWW-Authenticate", "Basic realm=\"ContainerRegistry\"")],
            body := BodyContent.empty })
    ∧ (∀ creds, credentials = some creds → check creds = false →
        index_v2 ContainerRegistry.new credentials check =
          { status := 401,
            headers := [("WWW-Authenticate", "Basic realm=\"ContainerRegistry\"")],
            body := BodyContent.empty }) := by
  refine ⟨?_, ?_, ?_, ?_⟩
  · cases credentials with
    | none => rfl
    | some creds =>
      by_cases h : check creds <;>
        simp [index_v2, ContainerRegistry.new, Response.header?, h]
  · rintro creds rfl h
    simp [index_v2, ContainerRegistry.new, h]
  · rintro rfl
    rfl
  · rintro creds rfl h
    simp [index_v2, ContainerRegistry.new, h]

/-- Witness for C8 at concrete credentials and checkers. -/
theorem C8_witness :
    index_v2 ContainerRegistry.new (some (UnverifiedCredentials.mk "u" "p"))
        (fun _ => true) =
      { status := 200,
        headers := [("WWW-Authenticate", "Basic realm=\"ContainerRegistry\"")],
        body := BodyContent.empty }
    ∧ index_v2 ContainerRegistry.new none (fun _ => true) =
      { status := 401,
        headers := [("WWW-Authenticate", "Basic realm=\"ContainerRegistry\"")],
        body := BodyContent.empty }
    ∧ index_v2 ContainerRegistry.new (some (UnverifiedCredentials.mk "u" "p"))
        (fun _ => false) =
      { status := 401,
        headers := [("WWW-Authenticate", "Basic realm=\"ContainerRegistry\"")],
        body := BodyContent.empty } :=
  ⟨(C8_index_v2 _ _).2.1 _ rfl rfl,
   (C8_index_v2 _ _).2.2.1 rfl,
   (C8_index_v2 _ _).2.2.2 _ rfl rfl⟩

-- Claim C9: manifest PUT body must be UTF-8.

/-- Claim C9: a manifest PUT whose body is not valid UTF-8 is rejected by
the `String` extractor before `put_manifest` is called and before the hook
sink is notified (the event trace is empty); on any successful manifest PUT
the bytes handed to `put_manifest` are the request bytes unchanged, hence
valid UTF-8. -/
theorem C9_manifest_put_utf8 (manifest_reference : ManifestReference)
    (body : List Nat) (putRes : Except StorageErr Digest) :
    (isValidUtf8 body = false →
      manifest_put_route manifest_reference body putRes =
        ([], { status := 400, headers := [],
               body := BodyContent.text "invalid utf-8" }))
    ∧ (∀ digest, putRes = Except.ok digest → isValidUtf8 body = true →
        (manifest_put_route manifest_reference body putRes).1 =
          [Event.putManifest manifest_reference body,
           Event.hookManifestUploaded manifest_reference]
        ∧ ∀ ref2 stored,
            Event.putManifest ref2 stored ∈
              (manifest_put_route manifest_reference body putRes).1 →
            stored = body ∧ isValidUtf8 stored = true) := by
  constructor
  · intro h
    simp [manifest_put_route, h]
  · rintro digest rfl hv
    constructor
    · simp [manifest_put_route, hv, manifest_put, handleResult]
    · intro ref2 stored hmem
      simp [manifest_put_route, hv, manifest_put, handleResult] at hmem
      rcases hmem with ⟨_, rfl⟩
      exact ⟨rfl, hv⟩

/-- Witness for C9: the lone byte `0xFF` is rejected with an empty trace;
the ASCII body `hi` flows through to `put_manifest` and the hook. -/
theorem C9_witness :
    manifest_put_route
        (ManifestReference.mk (ImageLocation.mk "r" "i") (Reference.tag "t"))
        [255] (Except.ok (Digest.mk [])) =
      ([], { status := 400, headers := [],
             body := BodyContent.text "invalid utf-8" })
    ∧ (manifest_put_route
        (ManifestReference.mk (ImageLocation.mk "r" "i") (Reference.tag "t"))
        [104, 105] (Except.ok (Digest.mk []))).1 =
      [Event.putManifest
         (ManifestReference.mk (ImageLocation.mk "r" "i") (Reference.tag "t"))
         [104, 105],
       Event.hookManifestUploaded
         (ManifestReference.mk (ImageLocation.mk "r" "i") (Reference.tag "t"))] :=
  ⟨(C9_manifest_put_utf8 _ [255] _).1 (by decide),
   ((C9_manifest_put_utf8 _ [104, 105] _).2 (Digest.mk []) rfl (by decide)).1⟩

-- Claim C10: blob GET vs blob HEAD headers.

/-- Claim C10: GET of an existing blob returns 200 streaming the blob bytes
with no `Content-Length`, no `Content-Type` and no `Docker-Content-Digest`
header, while HEAD (`blob_check`) on a hit returns 200 setting all
three. -/
theorem C10_blob_get_headers (image : Digest) (blobBytes : List Nat)
    (size : Nat) :
    blob_get image (Except.ok (some blobBytes)) =
      ([Event.getBlobReader image],
       Except.ok { status := 200, headers := [],
                   body := BodyContent.bytes blobBytes })
    ∧ Response.header?
        { status := 200, headers := [], body := BodyContent.bytes blobBytes }
        "Content-Length" = none
    ∧ Response.header?
        { status := 200, headers := [], body := BodyContent.bytes blobBytes }
        "Content-Type" = none
    ∧ Response.header?
        { status := 200, headers := [], body := BodyContent.bytes blobBytes }
        "Docker-Content-Digest" = none
    ∧ blob_check image (Except.ok (some size)) =
        ([Event.getBlobMetadata image],
         Except.ok { status := 200,
                     headers := [("Content-Length", toString size),
                                 ("Docker-Content-Digest", imageDigestString image),
                                 ("Content-Type", "application/octet-stream")],
                     body := BodyContent.empty })
    ∧ Response.header?
        { status := 200,
          headers := [("Content-Length", toString size),
                      ("Docker-Content-Digest", imageDigestString image),
                      ("Content-Type", "application/octet-stream")],
          body := BodyContent.empty } "Content-Length" = some (toString size)
    ∧ Response.header?
        { status := 200,
          headers := [("Content-Length", toString size),
                      ("Docker-Content-Digest", imageDigestString image),
                      ("Content-Type", "application/octet-stream")],
          body := BodyContent.empty } "Docker-Content-Digest" =
        some (imageDigestString image)
    ∧ Response.header?
        { status := 200,
          headers := [("Content-Length", toString size),
                      ("Docker-Content-Digest", imageDigestString image),
                      ("Content-Type", "application/octet-stream")],
          body := BodyContent.empty } "Content-Type" =
        some "application/octet-stream" :=
  ⟨rfl, rfl, rfl, rfl, rfl, rfl, rfl, rfl⟩
